import Mathlib

/-!
Shallow embedding of the rchidrun launcher (src/main.rs) and verification of
its specification claims.

The launcher maps a language name to a WASM runtime artifact stored under
the per-user directory HOME/.rchidrun/plugins/<language>/runtime.wasm,
lazily installs the artifact (via the wasmer package manager for registry
languages, or from a user-supplied URL otherwise) and executes the script
inside a wasmtime instance with a WASI context.

Modelling choices:
- the filesystem is an explicit in-memory structure (paths are lists of
  components; host I/O errors such as a failing create_dir_all are outside
  the model, which captures the success behaviour of the filesystem calls);
- external collaborators (the blocking HTTP fetch, the wasmer subprocess,
  and the wasmtime engine) are oracle functions bundled in a World value;
- standard input is a list of lines, standard output a list of printed
  messages, both carried in the state St;
- the environment is an Option String holding the HOME variable.
-/

/-- Paths are lists of components, mirroring PathBuf push operations. -/
abbrev FsPath := List String

/-- Association-list lookup on paths, mirroring a filename to contents map. -/
def lookupPath : List (FsPath × List Nat) → FsPath → Option (List Nat)
  | [], _ => none
  | (q, b) :: rest, p => if q = p then some b else lookupPath rest p

/-- In-memory filesystem: regular files with byte contents, and directories. -/
structure Fs where
  files : List (FsPath × List Nat)
  dirs : List FsPath
deriving DecidableEq, Repr

/-- Read the contents of a regular file, none if it does not exist. -/
def Fs.read (fs : Fs) (p : FsPath) : Option (List Nat) :=
  lookupPath fs.files p

/-- Create or truncate-and-overwrite a regular file (File::create then write). -/
def Fs.writeFile (fs : Fs) (p : FsPath) (b : List Nat) : Fs :=
  { fs with files := (p, b) :: fs.files }

/-- fs::create_dir_all: record the directory and all its ancestors. -/
def Fs.createDirAll (fs : Fs) (p : FsPath) : Fs :=
  { fs with dirs := p.inits.filter (fun d => !d.isEmpty) ++ fs.dirs }

/-- PathBuf::exists: true when the path denotes a file or a directory. -/
def Fs.pathDefined (fs : Fs) (p : FsPath) : Bool :=
  (fs.read p).isSome || decide (p ∈ fs.dirs)

/-- Process state: filesystem, remaining stdin lines, printed output. -/
structure St where
  fs : Fs
  stdin : List String
  out : List String
deriving DecidableEq, Repr

/-- Print one message (println or a flushed prompt). -/
def St.print (s : St) (m : String) : St :=
  { s with out := s.out ++ [m] }

/-- Unicode White_Space code points, as used by char::is_whitespace in Rust. -/
def isRustWhitespace (c : Char) : Bool :=
  decide ((9 ≤ c.toNat ∧ c.toNat ≤ 13) ∨ c.toNat = 32 ∨ c.toNat = 0x85 ∨
    c.toNat = 0xA0 ∨ c.toNat = 0x1680 ∨ (0x2000 ≤ c.toNat ∧ c.toNat ≤ 0x200A) ∨
    c.toNat = 0x2028 ∨ c.toNat = 0x2029 ∨ c.toNat = 0x202F ∨ c.toNat = 0x205F ∨
    c.toNat = 0x3000)

/-- str::trim: drop whitespace from both ends. -/
def rustTrim (s : String) : String :=
  String.mk (((s.data.dropWhile isRustWhitespace).reverse.dropWhile
    isRustWhitespace).reverse)

/-- ASCII case folding of one character. The source compares the trimmed
line against the one-character ASCII string y via str::to_lowercase; the
model folds ASCII letters, which is faithful for that comparison. -/
def asciiLower (c : Char) : Char :=
  if 'A' ≤ c ∧ c ≤ 'Z' then Char.ofNat (c.toNat + 32) else c

/-- str::to_lowercase restricted to ASCII folding (see asciiLower). -/
def rustToLower (s : String) : String :=
  String.mk (s.data.map asciiLower)

/-- io::stdin().read_line followed by trim, as in fn read_line. At end of
input read_line reads zero bytes and yields the empty string. -/
def read_line (s : St) : String × St :=
  match s.stdin with
  | [] => ("", s)
  | l :: rest => (rustTrim l, { s with stdin := rest })

deriving instance DecidableEq for Except

/-- Error taxonomy of the launcher, one tag per anyhow error path. -/
inductive RunError where
  | configError
  | unsupportedLanguage
  | pmUnavailable
  | installFailed
  | downloadFailed
  | moduleNotFound
  | moduleLoadError
  | instantiateFailed
  | entryPointMissing
  | executionTrap
  | aborted
deriving DecidableEq, Repr

/-- WASI context built by WasiCtxBuilder: inherit_stdio and the argv list. -/
structure WasiCtx where
  inheritStdio : Bool
  args : List String
deriving DecidableEq, Repr

/-- Behaviour of a successfully validated WASM module: whether linking and
instantiation succeed, the export names, and whether invoking the start
function traps (as a function of the WASI context it was given). -/
structure ModuleInfo where
  instantiates : Bool
  exports : List String
  startTrap : WasiCtx → Bool

/-- External collaborators: the blocking HTTP fetch (none models a
network/transport failure), the wasmer subprocess (none models a launch
failure, otherwise exit success plus its effect on the filesystem), and the
wasmtime decoder (none models invalid module bytes). -/
structure World where
  fetch : String → Option (List Nat)
  pm : String → FsPath → Fs → Option (Bool × Fs)
  decode : List Nat → Option ModuleInfo

/-- fn sdk_dir: HOME/.rchidrun/plugins, configuration error if HOME unset. -/
def sdk_dir (env : Option String) : Except RunError FsPath :=
  match env with
  | none => Except.error RunError.configError
  | some home => Except.ok [home, ".rchidrun", "plugins"]

/-- The runtime artifact location for a language under a given home. -/
def artifactPath (home language : String) : FsPath :=
  [home, ".rchidrun", "plugins", language, "runtime.wasm"]

/-- Association-list lookup for the registry table. -/
def lookupStr : List (String × String) → String → Option String
  | [], _ => none
  | (k, v) :: rest, x => if k = x then some v else lookupStr rest x

/-- fn get_language_packages: the static registry table. -/
def get_language_packages : List (String × String) :=
  [("python", "wasmer/python"), ("javascript", "wasmer/quickjs"),
   ("ruby", "wasmer/ruby")]

/-- fn is_supported_language: membership in the registry table. -/
def is_supported_language (language : String) : Bool :=
  (lookupStr get_language_packages language).isSome

/-- fn get_wasmer_package: the package id for a registry language. -/
def get_wasmer_package (language : String) : Option String :=
  lookupStr get_language_packages language

/-- Messages printed by run_language and the installers (format arguments
elided from the text; only message identity matters to the model). -/
def noRuntimeMsg (language : String) : String :=
  "No runtime found for " ++ language

/-- The interactive yes/no installation prompt. -/
def promptYesNo : String := "Install it via Wasmer? (y/n): "

/-- The interactive URL request prompt. -/
def promptUrl : String :=
  "Language not predefined. Provide a URL to the WASM runtime: "

/-- Success message of the registry installer. -/
def installedWasmerMsg : String := "Installed via Wasmer"

/-- Success message of the URL installer. -/
def installedUrlMsg : String := "Installed from URL"

/-- fn install_via_wasmer: resolve the package id, create the language
directory, run the wasmer subprocess against it, succeed exactly when the
subprocess exits successfully. -/
def install_via_wasmer (w : World) (env : Option String) (language : String)
    (s : St) : Except RunError Unit × St :=
  match get_wasmer_package language with
  | none => (Except.error RunError.unsupportedLanguage, s)
  | some package =>
    match sdk_dir env with
    | Except.error e => (Except.error e, s)
    | Except.ok root =>
      let sdk_path := root ++ [language]
      let s1 : St := { s with fs := s.fs.createDirAll sdk_path }
      match w.pm package sdk_path s1.fs with
      | none => (Except.error RunError.pmUnavailable, s1)
      | some (ok, fs2) =>
        let s2 : St := { s1 with fs := fs2 }
        if ok then (Except.ok (), s2.print installedWasmerMsg)
        else (Except.error RunError.installFailed, s2)

/-- fn install_via_url: create the language directory, create (truncate)
the artifact file, then fetch the URL and stream the body into the file. -/
def install_via_url (w : World) (env : Option String) (language url : String)
    (s : St) : Except RunError Unit × St :=
  match sdk_dir env with
  | Except.error e => (Except.error e, s)
  | Except.ok root =>
    let dir := root ++ [language]
    let file_path := dir ++ ["runtime.wasm"]
    let s1 : St := { s with fs := (s.fs.createDirAll dir).writeFile file_path [] }
    match w.fetch url with
    | none => (Except.error RunError.downloadFailed, s1)
    | some body =>
      let s2 : St := { s1 with fs := s1.fs.writeFile file_path body }
      (Except.ok (), s2.print installedUrlMsg)

/-- The WASI context run_sdk builds: inherited stdio, argv = the script. -/
def wasi_ctx_for (script : String) : WasiCtx :=
  { inheritStdio := true, args := [script] }

/-- fn run_sdk: load the artifact (Module::from_file fails when the file is
absent or invalid), build the WASI context, instantiate, look up the start
export by name and invoke it. -/
def run_sdk (w : World) (env : Option String) (language script : String)
    (s : St) : Except RunError Unit × St :=
  match sdk_dir env with
  | Except.error e => (Except.error e, s)
  | Except.ok root =>
    let wasm_path := root ++ [language, "runtime.wasm"]
    match s.fs.read wasm_path with
    | none => (Except.error RunError.moduleNotFound, s)
    | some bytes =>
      match w.decode bytes with
      | none => (Except.error RunError.moduleLoadError, s)
      | some m =>
        let wasi := wasi_ctx_for script
        if m.instantiates then
          if "_start" ∈ m.exports then
            if m.startTrap wasi then (Except.error RunError.executionTrap, s)
            else (Except.ok (), s)
          else (Except.error RunError.entryPointMissing, s)
        else (Except.error RunError.instantiateFailed, s)

/-- fn run_language: the resolution flow. Cache hit executes directly; on a
miss a registry language prompts yes/no and installs via wasmer on y, any
other answer aborts; a non-registry language prompts for a URL and installs
from it; both install paths then execute the script. -/
def run_language (w : World) (env : Option String) (language script : String)
    (s : St) : Except RunError Unit × St :=
  match sdk_dir env with
  | Except.error e => (Except.error e, s)
  | Except.ok root =>
    let sdk_path := root ++ [language, "runtime.wasm"]
    if s.fs.pathDefined sdk_path then
      run_sdk w env language script s
    else
      let s1 := s.print (noRuntimeMsg language)
      if is_supported_language language then
        let s2 := s1.print promptYesNo
        let cr := read_line s2
        if rustToLower cr.1 = "y" then
          match install_via_wasmer w env language cr.2 with
          | (Except.error e, s4) => (Except.error e, s4)
          | (Except.ok _, s4) => run_sdk w env language script s4
        else (Except.error RunError.aborted, cr.2)
      else
        let s2 := s1.print promptUrl
        let ur := read_line s2
        match install_via_url w env language ur.1 ur.2 with
        | (Except.error e, s4) => (Except.error e, s4)
        | (Except.ok _, s4) => run_sdk w env language script s4

/-- One entry as yielded by fs::read_dir: a name and whether it is a
directory. An erroring entry is modelled as none (entries.flatten skips
it). Names are Lean strings, so the to_str UTF-8 check always succeeds. -/
structure DirEntry where
  name : String
  isDir : Bool
deriving DecidableEq, Repr

/-- fn sdk_list: the installed-SDK listing (immediate subdirectory names of
the SDK root, an unreadable root yielding the empty listing) paired with
the registry table. The readDir oracle models fs::read_dir. -/
def sdk_list (env : Option String)
    (readDir : FsPath → Option (List (Option DirEntry))) :
    Except RunError (List String × List (String × String)) :=
  match sdk_dir env with
  | Except.error e => Except.error e
  | Except.ok root =>
    let installed :=
      match readDir root with
      | none => []
      | some entries =>
        (((entries.filterMap id).filter (fun e => e.isDir)).map
          (fun e => e.name))
    Except.ok (installed, get_language_packages)

/-- Process exit code of fn main: zero on success, nonzero on any error. -/
def exit_code (r : Except RunError Unit) : Nat :=
  match r with
  | Except.ok _ => 0
  | Except.error _ => 1

/-- A module whose start export exists, instantiates and returns cleanly. -/
def sampleModule : ModuleInfo :=
  { instantiates := true, exports := ["_start"], startTrap := fun _ => false }

/-- A well-behaved world: fetches succeed with fixed bytes, the package
manager succeeds and materialises the runtime artifact inside the target
directory, and every byte sequence decodes to sampleModule. -/
def sampleWorld : World :=
  { fetch := fun _ => some [0, 97, 115, 109]
  , pm := fun _ dir fs => some (true, fs.writeFile (dir ++ ["runtime.wasm"]) [0, 97, 115, 109])
  , decode := fun _ => some sampleModule }

/-- A world whose package manager reports success without writing any
file, and whose fetch and decoder always fail. -/
def pmNoopWorld : World :=
  { fetch := fun _ => none
  , pm := fun _ _ fs => some (true, fs)
  , decode := fun _ => none }

/-- A world whose fetch always fails and whose decoder rejects everything
(no byte sequence is a valid module). -/
def fetchFailWorld : World :=
  { fetch := fun _ => none
  , pm := fun _ _ fs => some (true, fs)
  , decode := fun _ => none }

/-- The empty initial state: empty filesystem, no input, no output. -/
def st0 : St :=
  { fs := { files := [], dirs := [] }, stdin := [], out := [] }

/-- A read_dir oracle for an unreadable or missing root. -/
def rdUnreadable : FsPath → Option (List (Option DirEntry)) :=
  fun _ => none

/-- A concrete directory listing: one language directory, one stray
regular file, one erroring entry. -/
def sampleEntries : List (Option DirEntry) :=
  [some { name := "python", isDir := true },
   some { name := "notes.txt", isDir := false },
   none]

/-- A read_dir oracle returning sampleEntries for every directory. -/
def rdSample : FsPath → Option (List (Option DirEntry)) :=
  fun _ => some sampleEntries

/-- A module that instantiates but exports nothing, in particular not the
start symbol. -/
def noStartModule : ModuleInfo :=
  { instantiates := true, exports := [], startTrap := fun _ => false }

/-- A world whose decoder yields noStartModule for every byte sequence. -/
def noStartWorld : World :=
  { fetch := fun _ => none
  , pm := fun _ _ fs => some (true, fs)
  , decode := fun _ => some noStartModule }

/-- A state whose filesystem holds a one-byte python artifact. -/
def stPythonArtifact : St :=
  { fs := { files := [(artifactPath "home" "python", [0])], dirs := [] }
  , stdin := [], out := [] }

/-- C6: for every language name present in the registry,
is_supported_language returns true and get_wasmer_package returns a defined
package id; for every other name is_supported_language returns false and
get_wasmer_package returns none. -/
theorem C6_registry_membership (language : String) :
    is_supported_language language =
      decide (language ∈ get_language_packages.map Prod.fst) ∧
    (get_wasmer_package language).isSome =
      decide (language ∈ get_language_packages.map Prod.fst) := by
  have key : (get_wasmer_package language).isSome =
      decide (language ∈ get_language_packages.map Prod.fst) := by
    rw [get_wasmer_package, get_language_packages]
    by_cases h1 : "python" = language <;>
    by_cases h2 : "javascript" = language <;>
    by_cases h3 : "ruby" = language <;>
    simp [lookupStr, h1, h2, h3, get_language_packages] <;>
    simp_all [eq_comm]
  exact ⟨key, key⟩

/-- C6 instances: python is supported with a defined package id, cobol is
not supported and has no package id. -/
theorem C6_registry_membership_witness :
    is_supported_language "python" = true ∧
    (get_wasmer_package "python").isSome = true ∧
    is_supported_language "cobol" = false ∧
    (get_wasmer_package "cobol").isSome = false := by
  have h1 := C6_registry_membership "python"
  have h2 := C6_registry_membership "cobol"
  refine ⟨?_, ?_, ?_, ?_⟩
  · rw [h1.1]; decide
  · rw [h1.2]; decide
  · rw [h2.1]; decide
  · rw [h2.2]; decide

/-- C8: sdk_dir fails with the configuration error exactly when HOME is
unset; on success it returns HOME/.rchidrun/plugins; and both the run flow
and sdk-list abort immediately, without touching any state, when it fails. -/
theorem C8_sdk_root (w : World) (language script : String) (s : St)
    (readDir : FsPath → Option (List (Option DirEntry))) :
    (∀ env, sdk_dir env = Except.error RunError.configError ↔ env = none) ∧
    (∀ home, sdk_dir (some home) = Except.ok [home, ".rchidrun", "plugins"]) ∧
    run_language w none language script s = (Except.error RunError.configError, s) ∧
    run_sdk w none language script s = (Except.error RunError.configError, s) ∧
    sdk_list none readDir = Except.error RunError.configError := by
  refine ⟨?_, fun home => rfl, rfl, rfl, rfl⟩
  intro env
  cases env with
  | none => simp [sdk_dir]
  | some home => simp [sdk_dir]

/-- C8 instances: a present HOME yields the per-user plugin root, an absent
HOME yields the configuration error and run aborts with it immediately. -/
theorem C8_sdk_root_witness :
    sdk_dir (some "home") = Except.ok ["home", ".rchidrun", "plugins"] ∧
    sdk_dir none = Except.error RunError.configError ∧
    run_language sampleWorld none "python" "a.py" st0 =
      (Except.error RunError.configError, st0) :=
  ⟨(C8_sdk_root sampleWorld "python" "a.py" st0 rdSample).2.1 "home",
   ((C8_sdk_root sampleWorld "python" "a.py" st0 rdSample).1 none).mpr rfl,
   (C8_sdk_root sampleWorld "python" "a.py" st0 rdSample).2.2.1⟩

/-- Unfolding of install_via_wasmer for a registry language under a set
HOME: create the language directory, then defer to the wasmer subprocess,
invoked with the registry-resolved package id and the target directory. -/
theorem install_via_wasmer_eq (w : World) (home language : String) (s : St)
    (package : String) (hp : get_wasmer_package language = some package) :
    install_via_wasmer w (some home) language s =
      match w.pm package [home, ".rchidrun", "plugins", language]
          (s.fs.createDirAll [home, ".rchidrun", "plugins", language]) with
      | none => (Except.error RunError.pmUnavailable,
          { s with fs := s.fs.createDirAll [home, ".rchidrun", "plugins", language] })
      | some (ok, fs2) =>
        if ok then (Except.ok (), (St.mk fs2 s.stdin s.out).print installedWasmerMsg)
        else (Except.error RunError.installFailed, St.mk fs2 s.stdin s.out) := by
  simp only [install_via_wasmer, hp, sdk_dir, List.cons_append, List.nil_append]

/-- Reading an artifact that is present rules the missing-module error out
of run_sdk: the run may still fail, but never with moduleNotFound. -/
theorem run_sdk_not_notFound_of_present (w : World) (home language script : String)
    (s : St) (h : (s.fs.read (artifactPath home language)).isSome = true) :
    (run_sdk w (some home) language script s).1 ≠
      Except.error RunError.moduleNotFound := by
  obtain ⟨bytes, hb⟩ := Option.isSome_iff_exists.mp h
  have hb2 : s.fs.read [home, ".rchidrun", "plugins", language, "runtime.wasm"] =
      some bytes := hb
  simp only [run_sdk, sdk_dir, List.cons_append, List.nil_append, hb2]
  cases hd : w.decode bytes with
  | none => simp
  | some m =>
    by_cases hi : m.instantiates <;>
    by_cases hs : "_start" ∈ m.exports <;>
    by_cases ht : m.startTrap (wasi_ctx_for script) <;>
    simp [hi, hs, ht]

/-- C1 counterexample: with a package manager that reports success without
materialising any file (the source never checks), install_via_wasmer for
python under home succeeds, yet the artifact is absent and the subsequent
run fails with moduleNotFound. -/
theorem C1_counterexample :
    (install_via_wasmer pmNoopWorld (some "home") "python" st0).1 = Except.ok () ∧
    (install_via_wasmer pmNoopWorld (some "home") "python" st0).2.fs.read
      (artifactPath "home" "python") = none ∧
    (run_sdk pmNoopWorld (some "home") "python" "script.py"
      (install_via_wasmer pmNoopWorld (some "home") "python" st0).2).1 =
      Except.error RunError.moduleNotFound := by
  refine ⟨by decide, by decide, by decide⟩

/-- C1 (amended): provided the package-manager subprocess, whenever it
exits successfully, has materialised the runtime artifact inside the
target directory, a successful install_via_wasmer leaves the artifact
present at artifactPath and the subsequent run cannot fail with
moduleNotFound. The source itself performs no existence check after the
subprocess, so the postcondition holds only under that assumption. -/
theorem C1_install_postcondition (w : World) (home language script : String) (s : St)
    (hpm : ∀ package dir fs ok fs2, w.pm package dir fs = some (ok, fs2) →
      ok = true → (lookupPath fs2.files (dir ++ ["runtime.wasm"])).isSome = true)
    (hok : (install_via_wasmer w (some home) language s).1 = Except.ok ()) :
    ((install_via_wasmer w (some home) language s).2.fs.read
      (artifactPath home language)).isSome = true ∧
    (run_sdk w (some home) language script
      (install_via_wasmer w (some home) language s).2).1 ≠
      Except.error RunError.moduleNotFound := by
  have hgp : ∃ package, get_wasmer_package language = some package := by
    cases hg : get_wasmer_package language with
    | none => simp [install_via_wasmer, hg] at hok
    | some p => exact ⟨p, rfl⟩
  obtain ⟨package, hp⟩ := hgp
  have hiw := install_via_wasmer_eq w home language s package hp
  cases hpmres : w.pm package [home, ".rchidrun", "plugins", language]
      (s.fs.createDirAll [home, ".rchidrun", "plugins", language]) with
  | none =>
    rw [hpmres] at hiw
    rw [hiw] at hok
    simp at hok
  | some pr =>
    obtain ⟨ok, fs2⟩ := pr
    rw [hpmres] at hiw
    by_cases hb : ok = true
    · subst hb
      simp at hiw
      have hfile := hpm package _ _ _ _ hpmres rfl
      rw [hiw]
      constructor
      · simpa [St.print, Fs.read, artifactPath] using hfile
      · exact run_sdk_not_notFound_of_present w home language script _
          (by simpa [St.print, Fs.read, artifactPath] using hfile)
    · rw [hiw] at hok
      simp [hb] at hok

/-- C1 amended instance: with a package manager that does write the
artifact, a successful python install leaves the artifact present and the
run does not fail with moduleNotFound. -/
theorem C1_install_postcondition_witness :
    ((install_via_wasmer sampleWorld (some "home") "python" st0).2.fs.read
      (artifactPath "home" "python")).isSome = true ∧
    (run_sdk sampleWorld (some "home") "python" "a.py"
      (install_via_wasmer sampleWorld (some "home") "python" st0).2).1 ≠
      Except.error RunError.moduleNotFound :=
  C1_install_postcondition sampleWorld "home" "python" "a.py" st0
    (by
      intro package dir fs ok fs2 h1 h2
      simp only [sampleWorld] at h1
      injection h1 with h3
      cases h3
      simp [Fs.writeFile, lookupPath])
    (by decide)

/-- C2: whenever a URL install under a set HOME succeeds, the bytes stored
at the artifact path are exactly the bytes of the fetched response body. -/
theorem C2_url_roundtrip (w : World) (home language url : String) (s : St)
    (hok : (install_via_url w (some home) language url s).1 = Except.ok ()) :
    ∃ body, w.fetch url = some body ∧
      (install_via_url w (some home) language url s).2.fs.read
        (artifactPath home language) = some body := by
  cases hf : w.fetch url with
  | none => simp [install_via_url, sdk_dir, hf] at hok
  | some body =>
    refine ⟨body, rfl, ?_⟩
    simp [install_via_url, sdk_dir, hf, Fs.read, Fs.writeFile, St.print,
      lookupPath, artifactPath]

/-- C2 instance: the sample fetch of four bytes is stored verbatim for the
cobol runtime. -/
theorem C2_url_roundtrip_witness :
    ∃ body, sampleWorld.fetch "http://example.com/r.wasm" = some body ∧
      (install_via_url sampleWorld (some "home") "cobol"
        "http://example.com/r.wasm" st0).2.fs.read
        (artifactPath "home" "cobol") = some body :=
  C2_url_roundtrip sampleWorld "home" "cobol" "http://example.com/r.wasm" st0
    (by decide)

/-- C4: for a registry language with no artifact present, any yes/no answer
whose trimmed lowercased form is not y terminates the run as aborted with a
nonzero exit code, consuming one stdin line and printing the two messages,
while the filesystem is left exactly as it was (no writes at all). -/
theorem C4_decline_aborts (w : World) (home language script line : String)
    (rest : List String) (fs : Fs) (outs : List String)
    (hsup : is_supported_language language = true)
    (habs : fs.pathDefined (artifactPath home language) = false)
    (hn : rustToLower (rustTrim line) ≠ "y") :
    run_language w (some home) language script (St.mk fs (line :: rest) outs) =
      (Except.error RunError.aborted,
        St.mk fs rest (outs ++ [noRuntimeMsg language, promptYesNo])) ∧
    exit_code (run_language w (some home) language script
      (St.mk fs (line :: rest) outs)).1 = 1 := by
  have habs2 : fs.pathDefined
      [home, ".rchidrun", "plugins", language, "runtime.wasm"] = false := habs
  refine ⟨?_, ?_⟩ <;>
    simp [run_language, sdk_dir, habs2, hsup, read_line, St.print, hn, exit_code]

/-- C4 instance: declining the python installation with the answer n leaves
the empty filesystem untouched and aborts with exit code 1. -/
theorem C4_decline_aborts_witness :
    run_language sampleWorld (some "home") "python" "a.py"
      (St.mk (Fs.mk [] []) ["n"] []) =
      (Except.error RunError.aborted,
        St.mk (Fs.mk [] []) [] [noRuntimeMsg "python", promptYesNo]) ∧
    exit_code (run_language sampleWorld (some "home") "python" "a.py"
      (St.mk (Fs.mk [] []) ["n"] [])).1 = 1 :=
  C4_decline_aborts sampleWorld "home" "python" "a.py" "n" [] (Fs.mk [] []) []
    (by decide) (by decide) (by decide)

/-- C5: for a registry language with no artifact present, any stdin line
whose trimmed, case-folded form equals y causes the run to install via the
registry installer and then execute; and the registry installer invokes
the package-manager subprocess with exactly the package id the registry
resolves for the language. -/
theorem C5_yes_installs (w : World) (home language script line package : String)
    (rest : List String) (fs : Fs) (outs : List String)
    (hpkg : get_wasmer_package language = some package)
    (habs : fs.pathDefined (artifactPath home language) = false)
    (hy : rustToLower (rustTrim line) = "y") :
    run_language w (some home) language script (St.mk fs (line :: rest) outs) =
      (match install_via_wasmer w (some home) language
          (St.mk fs rest (outs ++ [noRuntimeMsg language, promptYesNo])) with
       | (Except.error e, s4) => (Except.error e, s4)
       | (Except.ok _, s4) => run_sdk w (some home) language script s4) ∧
    install_via_wasmer w (some home) language
        (St.mk fs rest (outs ++ [noRuntimeMsg language, promptYesNo])) =
      (match w.pm package [home, ".rchidrun", "plugins", language]
          (fs.createDirAll [home, ".rchidrun", "plugins", language]) with
       | none => (Except.error RunError.pmUnavailable,
           St.mk (fs.createDirAll [home, ".rchidrun", "plugins", language]) rest
             (outs ++ [noRuntimeMsg language, promptYesNo]))
       | some (ok, fs2) =>
         if ok then (Except.ok (), (St.mk fs2 rest
             (outs ++ [noRuntimeMsg language, promptYesNo])).print installedWasmerMsg)
         else (Except.error RunError.installFailed,
           St.mk fs2 rest (outs ++ [noRuntimeMsg language, promptYesNo]))) := by
  have hsup : is_supported_language language = true := by
    have hlk : lookupStr get_language_packages language = some package := hpkg
    rw [is_supported_language, hlk]
    rfl
  have habs2 : fs.pathDefined
      [home, ".rchidrun", "plugins", language, "runtime.wasm"] = false := habs
  constructor
  · simp [run_language, sdk_dir, habs2, hsup, read_line, St.print, hy,
      List.append_assoc]
  · exact install_via_wasmer_eq w home language _ package hpkg

/-- C5 instance: the answer Y with surrounding whitespace is accepted, the
python runtime is installed and the script then runs to success. -/
theorem C5_yes_installs_witness :
    (run_language sampleWorld (some "home") "python" "a.py"
      (St.mk (Fs.mk [] []) [" Y "] [])).1 = Except.ok () := by
  have h := C5_yes_installs sampleWorld "home" "python" "a.py" " Y "
    "wasmer/python" [] (Fs.mk [] []) [] (by decide) (by decide) (by decide)
  rw [h.1]
  decide

/-- Reading a line never changes the printed output. -/
theorem read_line_out (s : St) : (read_line s).2.out = s.out := by
  cases s with
  | mk fs stdin outs => cases stdin <;> rfl


/-- run_sdk never changes the state: it only reads the filesystem. -/
theorem run_sdk_state_id (w : World) (env : Option String)
    (language script : String) (s : St) :
    (run_sdk w env language script s).2 = s := by
  cases env with
  | none => rfl
  | some home =>
    cases hread : s.fs.read [home, ".rchidrun", "plugins", language,
        "runtime.wasm"] with
    | none => simp [run_sdk, sdk_dir, hread]
    | some bytes =>
      cases hdec : w.decode bytes with
      | none => simp [run_sdk, sdk_dir, hread, hdec]
      | some m =>
        by_cases hi : m.instantiates <;>
        by_cases hs : "_start" ∈ m.exports <;>
        by_cases ht : m.startTrap (wasi_ctx_for script) <;>
        simp [run_sdk, sdk_dir, hread, hdec, hi, hs, ht]

/-- The URL installer leaves the printed output unchanged on a failed
fetch, and appends only its success message otherwise. -/
theorem install_via_url_out (w : World) (home language url : String) (s : St) :
    (install_via_url w (some home) language url s).2.out = s.out ∨
    (install_via_url w (some home) language url s).2.out =
      s.out ++ [installedUrlMsg] := by
  cases hf : w.fetch url with
  | none => left; simp [install_via_url, sdk_dir, hf]
  | some body => right; simp [install_via_url, sdk_dir, hf, St.print]

/-- The URL installer can fail with the configuration or download errors
only: never with the aborted or unsupported-language outcomes. -/
theorem install_via_url_errors (w : World) (env : Option String)
    (language url : String) (s : St) :
    (install_via_url w env language url s).1 ≠
      Except.error RunError.aborted ∧
    (install_via_url w env language url s).1 ≠
      Except.error RunError.unsupportedLanguage := by
  cases env with
  | none =>
    exact ⟨by simp [install_via_url, sdk_dir], by simp [install_via_url, sdk_dir]⟩
  | some home =>
    cases hf : w.fetch url with
    | none =>
      exact ⟨by simp [install_via_url, sdk_dir, hf],
             by simp [install_via_url, sdk_dir, hf]⟩
    | some body =>
      exact ⟨by simp [install_via_url, sdk_dir, hf, St.print],
             by simp [install_via_url, sdk_dir, hf, St.print]⟩

/-- Execution can fail with module, instantiation, entry-point, trap or
configuration errors only: never with the aborted or unsupported-language
outcomes. -/
theorem run_sdk_errors (w : World) (env : Option String)
    (language script : String) (s : St) :
    (run_sdk w env language script s).1 ≠ Except.error RunError.aborted ∧
    (run_sdk w env language script s).1 ≠
      Except.error RunError.unsupportedLanguage := by
  cases env with
  | none =>
    exact ⟨by simp [run_sdk, sdk_dir], by simp [run_sdk, sdk_dir]⟩
  | some home =>
    cases hread : s.fs.read [home, ".rchidrun", "plugins", language,
        "runtime.wasm"] with
    | none =>
      exact ⟨by simp [run_sdk, sdk_dir, hread], by simp [run_sdk, sdk_dir, hread]⟩
    | some bytes =>
      cases hdec : w.decode bytes with
      | none =>
        exact ⟨by simp [run_sdk, sdk_dir, hread, hdec],
               by simp [run_sdk, sdk_dir, hread, hdec]⟩
      | some m =>
        constructor <;>
        · by_cases hi : m.instantiates <;>
          by_cases hs : "_start" ∈ m.exports <;>
          by_cases ht : m.startTrap (wasi_ctx_for script) <;>
          simp [run_sdk, sdk_dir, hread, hdec, hi, hs, ht]

/-- The no-runtime notice printed by the run flow is never the yes/no
prompt (their first characters differ for every language). -/
theorem noRuntimeMsg_ne_promptYesNo (language : String) :
    noRuntimeMsg language ≠ promptYesNo := by
  intro h
  rw [noRuntimeMsg, promptYesNo] at h
  have h2 := congrArg (fun t => t.data.head?) h
  simp only [String.data_append, List.head?_append] at h2
  have h3 : ("No runtime found for ").data.head? = some 'N' := rfl
  have h4 : ("Install it via Wasmer? (y/n): ").data.head? = some 'I' := rfl
  rw [h3, h4] at h2
  simp at h2

/-- The yes/no prompt is none of the messages the URL-install branch can
print. -/
theorem promptYesNo_notin_url_msgs (language : String) :
    promptYesNo ∉ [noRuntimeMsg language, promptUrl] ∧
    promptYesNo ∉ [noRuntimeMsg language, promptUrl, installedUrlMsg] := by
  have h1 := Ne.symm (noRuntimeMsg_ne_promptYesNo language)
  have h2 : promptYesNo ≠ promptUrl := by decide
  have h3 : promptYesNo ≠ installedUrlMsg := by decide
  constructor <;> simp [h1, h2, h3]

/-- Joint properties of the URL-install-then-execute branch: the printed
output gains at most the URL-installer success message, and the outcome is
never the aborted or unsupported-language error. -/
theorem url_branch_props (w : World) (home language url script : String)
    (s3 : St) :
    ((match install_via_url w (some home) language url s3 with
      | (Except.error e, s4) => (Except.error e, s4)
      | (Except.ok _, s4) => run_sdk w (some home) language script s4).2.out =
        s3.out ∨
     (match install_via_url w (some home) language url s3 with
      | (Except.error e, s4) => (Except.error e, s4)
      | (Except.ok _, s4) => run_sdk w (some home) language script s4).2.out =
        s3.out ++ [installedUrlMsg]) ∧
    (match install_via_url w (some home) language url s3 with
      | (Except.error e, s4) => (Except.error e, s4)
      | (Except.ok _, s4) => run_sdk w (some home) language script s4).1 ≠
      Except.error RunError.aborted ∧
    (match install_via_url w (some home) language url s3 with
      | (Except.error e, s4) => (Except.error e, s4)
      | (Except.ok _, s4) => run_sdk w (some home) language script s4).1 ≠
      Except.error RunError.unsupportedLanguage := by
  obtain ⟨hna, hnu⟩ := install_via_url_errors w (some home) language url s3
  have hos := install_via_url_out w home language url s3
  rcases hr : install_via_url w (some home) language url s3 with ⟨r, s4⟩
  rw [hr] at hna hnu hos
  cases r with
  | error e =>
    refine ⟨?_, ?_, ?_⟩
    · simpa using hos
    · simpa using hna
    · simpa using hnu
  | ok u =>
    have hsid := run_sdk_state_id w (some home) language script s4
    refine ⟨?_, ?_, ?_⟩
    · simp only [hsid]
      simpa using hos
    · exact (run_sdk_errors w (some home) language script s4).1
    · exact (run_sdk_errors w (some home) language script s4).2

/-- C3: for a language outside the registry with no artifact present, the
run flow does not fail outright and never shows the yes/no installation
prompt: it prints the URL request prompt, reads one line from stdin, uses
its trimmed form as the URL of a URL install, and on installer success
executes the script; neither the aborted nor the unsupported-language
outcome can occur. -/
theorem C3_unsupported_requests_url (w : World) (home language script line : String)
    (rest : List String) (fs : Fs) (outs : List String)
    (hsup : is_supported_language language = false)
    (habs : fs.pathDefined (artifactPath home language) = false)
    (hout : promptYesNo ∉ outs) :
    run_language w (some home) language script (St.mk fs (line :: rest) outs) =
      (match install_via_url w (some home) language (rustTrim line)
          (St.mk fs rest (outs ++ [noRuntimeMsg language, promptUrl])) with
       | (Except.error e, s4) => (Except.error e, s4)
       | (Except.ok _, s4) => run_sdk w (some home) language script s4) ∧
    promptYesNo ∉ (run_language w (some home) language script
      (St.mk fs (line :: rest) outs)).2.out ∧
    promptUrl ∈ (run_language w (some home) language script
      (St.mk fs (line :: rest) outs)).2.out ∧
    (run_language w (some home) language script
      (St.mk fs (line :: rest) outs)).1 ≠ Except.error RunError.aborted ∧
    (run_language w (some home) language script
      (St.mk fs (line :: rest) outs)).1 ≠
      Except.error RunError.unsupportedLanguage := by
  have habs2 : fs.pathDefined
      [home, ".rchidrun", "plugins", language, "runtime.wasm"] = false := habs
  have heq : run_language w (some home) language script
      (St.mk fs (line :: rest) outs) =
      (match install_via_url w (some home) language (rustTrim line)
          (St.mk fs rest (outs ++ [noRuntimeMsg language, promptUrl])) with
       | (Except.error e, s4) => (Except.error e, s4)
       | (Except.ok _, s4) => run_sdk w (some home) language script s4) := by
    simp [run_language, sdk_dir, habs2, hsup, read_line, St.print]
  obtain ⟨hbo, hba, hbu⟩ := url_branch_props w home language (rustTrim line)
    script (St.mk fs rest (outs ++ [noRuntimeMsg language, promptUrl]))
  obtain ⟨hn2, hn3⟩ := promptYesNo_notin_url_msgs language
  refine ⟨heq, ?_, ?_, ?_, ?_⟩
  · rw [heq]
    rcases hbo with ho | ho <;> rw [ho]
    · intro hmem
      rcases List.mem_append.mp hmem with h | h
      · exact hout h
      · exact hn2 h
    · intro hmem
      rcases List.mem_append.mp hmem with h | h
      · rcases List.mem_append.mp h with h2 | h2
        · exact hout h2
        · exact hn2 h2
      · have h4 : promptYesNo = installedUrlMsg := by simpa using h
        exact absurd h4 (by decide)
  · rw [heq]
    rcases hbo with ho | ho <;> rw [ho] <;> simp
  · rw [heq]
    exact hba
  · rw [heq]
    exact hbu

/-- C3 instance: running the unsupported cobol with a URL on stdin installs
from that URL and executes to success, never printing the yes/no prompt. -/
theorem C3_unsupported_requests_url_witness :
    (run_language sampleWorld (some "home") "cobol" "c.cob"
      (St.mk (Fs.mk [] []) ["http://u"] [])).1 = Except.ok () ∧
    promptYesNo ∉ (run_language sampleWorld (some "home") "cobol" "c.cob"
      (St.mk (Fs.mk [] []) ["http://u"] [])).2.out := by
  have h := C3_unsupported_requests_url sampleWorld "home" "cobol" "c.cob"
    "http://u" [] (Fs.mk [] []) [] (by decide) (by decide) (by decide)
  refine ⟨?_, h.2.1⟩
  rw [h.1]
  decide

/-- C7: the installed-SDK portion of sdk-list is exactly the names of the
directory entries among the readable entries of the SDK root (erroring and
non-directory entries skipped, registry membership irrelevant), and an
unreadable or missing root yields the empty listing rather than an error. -/
theorem C7_list_installed (home : String)
    (readDir : FsPath → Option (List (Option DirEntry))) :
    (readDir [home, ".rchidrun", "plugins"] = none →
      sdk_list (some home) readDir = Except.ok ([], get_language_packages)) ∧
    (∀ entries, readDir [home, ".rchidrun", "plugins"] = some entries →
      sdk_list (some home) readDir = Except.ok
        ((((entries.filterMap id).filter (fun e => e.isDir)).map (fun e => e.name)),
          get_language_packages) ∧
      ∀ n, n ∈ (((entries.filterMap id).filter (fun e => e.isDir)).map
          (fun e => e.name)) ↔
        ∃ e : DirEntry, some e ∈ entries ∧ e.isDir = true ∧ e.name = n) := by
  constructor
  · intro h
    simp [sdk_list, sdk_dir, h]
  · intro entries h
    constructor
    · simp [sdk_list, sdk_dir, h]
    · intro n
      simp only [List.mem_map, List.mem_filter, List.mem_filterMap, id]
      constructor
      · rintro ⟨e, ⟨⟨oe, hoe, hid⟩, hdir⟩, hname⟩
        subst hid
        exact ⟨e, hoe, hdir, hname⟩
      · rintro ⟨e, hoe, hdir, hname⟩
        exact ⟨e, ⟨⟨some e, hoe, rfl⟩, hdir⟩, hname⟩

/-- C7 instance: a root with a python directory, a stray file and an
erroring entry lists exactly python; an unreadable root lists nothing. -/
theorem C7_list_installed_witness :
    sdk_list (some "home") rdSample =
      Except.ok (["python"], get_language_packages) ∧
    sdk_list (some "home") rdUnreadable =
      Except.ok ([], get_language_packages) := by
  have h1 := (C7_list_installed "home" rdSample).2 sampleEntries rfl
  have h2 := (C7_list_installed "home" rdUnreadable).1 rfl
  refine ⟨?_, h2⟩
  rw [h1.1]
  decide

/-- C9: run_sdk builds its system-interface context inheriting the host
standard streams and exposing exactly one guest argument, the script path;
the entry point is looked up under the fixed name _start, its absence is
the entry-point-missing failure, and when it is present the outcome is
decided by invoking the module against exactly that context. -/
theorem C9_exec_context (w : World) (home language script : String) (s : St)
    (bytes : List Nat) (m : ModuleInfo)
    (hread : s.fs.read (artifactPath home language) = some bytes)
    (hdec : w.decode bytes = some m)
    (hinst : m.instantiates = true) :
    wasi_ctx_for script = WasiCtx.mk true [script] ∧
    (wasi_ctx_for script).args = [script] ∧
    ("_start" ∉ m.exports →
      run_sdk w (some home) language script s =
        (Except.error RunError.entryPointMissing, s)) ∧
    ("_start" ∈ m.exports →
      run_sdk w (some home) language script s =
        (if m.startTrap (WasiCtx.mk true [script])
         then Except.error RunError.executionTrap else Except.ok (), s)) := by
  have hread2 : s.fs.read [home, ".rchidrun", "plugins", language,
      "runtime.wasm"] = some bytes := hread
  refine ⟨rfl, rfl, ?_, ?_⟩
  · intro hs
    simp [run_sdk, sdk_dir, hread2, hdec, hinst, hs]
  · intro hs
    by_cases ht : m.startTrap (wasi_ctx_for script) <;>
      simp only [wasi_ctx_for] at ht <;>
      simp [run_sdk, sdk_dir, hread2, hdec, hinst, hs, ht, wasi_ctx_for]

/-- C9 instance: a module with no exports makes the run fail with the
entry-point-missing error. -/
theorem C9_exec_context_witness :
    run_sdk noStartWorld (some "home") "python" "a.py" stPythonArtifact =
      (Except.error RunError.entryPointMissing, stPythonArtifact) := by
  have h := C9_exec_context noStartWorld "home" "python" "a.py"
    stPythonArtifact [0] noStartModule (by decide) rfl rfl
  exact h.2.2.1 (by decide)

/-- C10: install_via_url creates (truncates) the artifact file before the
fetch, so a failed download still leaves an empty artifact file behind; a
subsequent run for the same language then observes a cache hit and goes
straight to execution (no prompt, no installer), and since the empty byte
sequence is not a valid module it fails with the module-load error. -/
theorem C10_failed_download_leaves_artifact (w : World)
    (home language url script : String) (s : St)
    (hfetch : w.fetch url = none) :
    (install_via_url w (some home) language url s).1 =
      Except.error RunError.downloadFailed ∧
    (install_via_url w (some home) language url s).2.fs.read
      (artifactPath home language) = some [] ∧
    run_language w (some home) language script
        (install_via_url w (some home) language url s).2 =
      run_sdk w (some home) language script
        (install_via_url w (some home) language url s).2 ∧
    (w.decode [] = none →
      run_language w (some home) language script
          (install_via_url w (some home) language url s).2 =
        (Except.error RunError.moduleLoadError,
          (install_via_url w (some home) language url s).2)) := by
  have h1 : (install_via_url w (some home) language url s).1 =
      Except.error RunError.downloadFailed := by
    simp [install_via_url, sdk_dir, hfetch]
  have h2 : (install_via_url w (some home) language url s).2 =
      St.mk ((s.fs.createDirAll [home, ".rchidrun", "plugins", language]).writeFile
        [home, ".rchidrun", "plugins", language, "runtime.wasm"] [])
        s.stdin s.out := by
    simp [install_via_url, sdk_dir, hfetch]
  have hrd : (install_via_url w (some home) language url s).2.fs.read
      (artifactPath home language) = some [] := by
    rw [h2]
    simp [Fs.read, Fs.writeFile, lookupPath, artifactPath]
  have hrd2 : (install_via_url w (some home) language url s).2.fs.read
      [home, ".rchidrun", "plugins", language, "runtime.wasm"] = some [] := hrd
  have hpd : (install_via_url w (some home) language url s).2.fs.pathDefined
      [home, ".rchidrun", "plugins", language, "runtime.wasm"] = true := by
    simp [Fs.pathDefined, hrd2]
  have hcache : run_language w (some home) language script
      (install_via_url w (some home) language url s).2 =
      run_sdk w (some home) language script
      (install_via_url w (some home) language url s).2 := by
    simp [run_language, sdk_dir, hpd]
  refine ⟨h1, hrd, hcache, ?_⟩
  intro hdec
  rw [hcache]
  simp [run_sdk, sdk_dir, hrd2, hdec]

/-- C10 instance: with a failing fetch the cobol install fails with the
download error, yet the follow-up run sees the leftover empty artifact and
fails with the module-load error instead of prompting again. -/
theorem C10_failed_download_witness :
    (install_via_url fetchFailWorld (some "home") "cobol" "http://u" st0).1 =
      Except.error RunError.downloadFailed ∧
    run_language fetchFailWorld (some "home") "cobol" "x.cob"
        (install_via_url fetchFailWorld (some "home") "cobol" "http://u" st0).2 =
      (Except.error RunError.moduleLoadError,
        (install_via_url fetchFailWorld (some "home") "cobol" "http://u" st0).2) := by
  have h := C10_failed_download_leaves_artifact fetchFailWorld "home" "cobol"
    "http://u" "x.cob" st0 rfl
  exact ⟨h.1, h.2.2.2 rfl⟩
